import Mathlib

/-!
# Verification of `citus_tools.c`

A shallow embedding of the cluster-wide command execution and connectivity
health-check engine (`src/backend/distributed/operations/citus_tools.c`):
`master_run_on_worker` with its sequential executor
(`ExecuteCommandsAndStoreResults` / `ExecuteRemoteQueryOrCommand`) and
parallel executor (`ExecuteCommandsInParallelAndStoreResults`), the result
evaluator (`EvaluateQueryResult`, `StoreErrorMessage`), the result-set
builder (`CreateTupleStore`) and the connectivity-matrix engine
(`StoreAllConnectivityChecks`).

The network and the remote servers are modelled as oracles ("behaviours"):
for each command the oracle decides whether the connection attempt succeeds,
whether the send succeeds, how many poll sweeps the result stays busy, and
what the final libpq result looks like.  The embedded executors interpret
these oracles exactly as the C control flow does.
-/

namespace CitusTools

/-! ## Model of libpq results and connections -/

/-- Model of a `PGresult`, as far as `citus_tools.c` inspects it:
`PQresultStatus` (`PGRES_COMMAND_OK` / `PGRES_TUPLES_OK` / anything else),
`PQcmdStatus`, `PQnfields`, `PQntuples` and the cell values
(`PQgetvalue` / `PQgetisnull`).  A cell is `none` when it is SQL NULL. -/
inductive PGresultModel where
  | commandOk (cmdStatus : String)
  | tuplesOk (nfields : Nat) (rows : List (List (Option String)))
  | otherError
deriving DecidableEq

/-- `PQgetisnull(result, row, column)`: libpq reports 1 (null) for an
out-of-range row or column index, and otherwise whether the field is NULL. -/
def PQgetisnull (rows : List (List (Option String))) (row column : Nat) : Bool :=
  match rows.get? row with
  | none => true
  | some r =>
    match r.get? column with
    | none => true
    | some c => c.isNone

/-- `PQgetvalue(result, row, column)`: the cell's text, or the empty string
for a NULL field or an out-of-range index. -/
def PQgetvalue (rows : List (List (Option String))) (row column : Nat) : String :=
  match rows.get? row with
  | none => ""
  | some r =>
    match r.get? column with
    | some (some v) => v
    | _ => ""

/-- The truncation `StoreErrorMessage` performs on a copied error message:
`strchr(errorMessage, '\n')` followed by writing `'\0'` at the position
found keeps exactly the characters before the first line break. -/
def truncateAtLineBreak : List Char → List Char
  | [] => []
  | c :: rest => if c = '\n' then [] else c :: truncateAtLineBreak rest

/-- Embedding of `StoreErrorMessage` (citus_tools.c:607-631).  The argument
models `PQerrorMessage(connection->pgConn)` (`none` = NULL pointer).  The C
code trims the message at its first line break (`strchr(errorMessage, '\n')`
then writing a NUL there), and substitutes a default message when the
connection reports none. -/
def StoreErrorMessage (errorMessage : Option String) : String :=
  match errorMessage with
  | some m => String.mk (truncateAtLineBreak m.data)
  | none => "An error occurred while running the query"

/-- Embedding of `EvaluateQueryResult` (citus_tools.c:552-599).
`connErrorMessage` models the connection's `PQerrorMessage`, consulted only
on the error branch (via `StoreErrorMessage`).  Returns the pair
(`success`, contents of `queryResultString`); the callers always pass in an
empty / reset `queryResultString`, so returning the appended text is exact. -/
def EvaluateQueryResult (connErrorMessage : Option String)
    (queryResult : PGresultModel) : Bool × String :=
  match queryResult with
  | .commandOk commandStatus => (true, commandStatus)
  | .tuplesOk nfields rows =>
    if nfields ≠ 1 then
      (false, "expected a single column in query target")
    else if rows.length > 1 then
      (false, "expected a single row in query result")
    else
      if PQgetisnull rows 0 0 then (true, "")
      else (true, PQgetvalue rows 0 0)
  | .otherError => (false, StoreErrorMessage connErrorMessage)

/-! ## Sequential executor -/

/-- Oracle for one command as seen by the sequential executor
(`ExecuteRemoteQueryOrCommand`): the connection attempt fails
(`PQstatus != CONNECTION_OK`), the send fails (`SendRemoteCommand` returns
0), or a result arrives, carrying the connection's error-message state and
the `PGresult`. -/
inductive SeqBehavior where
  | connectFail
  | sendFail
  | response (connErrorMessage : Option String) (result : PGresultModel)
deriving DecidableEq

/-- Embedding of `ExecuteRemoteQueryOrCommand` (citus_tools.c:669-701):
connect (forced new), bail out with "failed to connect" on connection
failure, bail out with "failed to send query" on send failure, otherwise
get the result and evaluate it. -/
def ExecuteRemoteQueryOrCommand (nodeName : String) (nodePort : Int)
    (behavior : SeqBehavior) : Bool × String :=
  match behavior with
  | .connectFail => (false, "failed to connect to " ++ nodeName ++ ":" ++ toString nodePort)
  | .sendFail => (false, "failed to send query to " ++ nodeName ++ ":" ++ toString nodePort)
  | .response connErrorMessage result => EvaluateQueryResult connErrorMessage result

/-- Embedding of `ExecuteCommandsAndStoreResults` (citus_tools.c:641-660):
run the commands one at a time in index order; the status / result pair of
command `i` is recorded at index `i`. -/
def ExecuteCommandsAndStoreResults (nodeNameArray : List String)
    (nodePortArray : List Int) (env : Nat → SeqBehavior)
    (commandCount : Nat) : List (Bool × String) :=
  (List.range commandCount).map fun commandIndex =>
    ExecuteRemoteQueryOrCommand (nodeNameArray.getD commandIndex "")
      (nodePortArray.getD commandIndex 0) (env commandIndex)

/-! ## Parallel executor

The parallel executor (citus_tools.c:388-495) runs four phases: start all
connections, finish establishing them (recording "failed to connect" for
the failures), send all queries (recording the connection's error message
for send failures and closing those connections), then sweep the remaining
slots with `GetConnectionStatusAndResult` until every slot has finished,
checking for interrupts and sleeping between sweeps.

The oracle for one command gives the outcome of each phase; for the poll
phase it gives the number of sweeps during which `PQisBusy` still reports
busy, then the final event. -/

/-- Final event of the poll phase for one slot, as classified by
`GetConnectionStatusAndResult` (citus_tools.c:504-542): the connection went
bad (`PQstatus == CONNECTION_BAD`), `PQconsumeInput` failed, or a result
became available. -/
inductive PollOutcome where
  | connLost
  | consumeFail
  | response (connErrorMessage : Option String) (result : PGresultModel)
deriving DecidableEq

/-- Oracle for one command as seen by the parallel executor: connection
establishment fails, the send fails (with the connection's error-message
state, read by `StoreErrorMessage`), or the slot polls: `busy` sweeps
report busy, then `outcome` happens. -/
inductive ParBehavior where
  | connectFail
  | sendFail (connErrorMessage : Option String)
  | poll (busy : Nat) (outcome : PollOutcome)
deriving DecidableEq

/-- The terminal status/result recorded by `GetConnectionStatusAndResult`
once its slot stops being busy (citus_tools.c:514-541). -/
def GetConnectionStatusAndResult (outcome : PollOutcome) : Bool × String :=
  match outcome with
  | .connLost => (false, "connection lost")
  | .consumeFail => (false, "query result unavailable")
  | .response connErrorMessage result => EvaluateQueryResult connErrorMessage result

/-- State of one slot of the parallel executor during the poll loop: either
its outcome is recorded and its connection released (`done`), or it is still
awaiting its result (`awaiting`), with `busy` more sweeps reporting busy
before `outcome` happens. -/
inductive SlotState where
  | done (success : Bool) (result : String)
  | awaiting (busy : Nat) (outcome : PollOutcome)
deriving DecidableEq

/-- Whether a slot has its outcome recorded (its `connectionArray` entry is
NULL in the C code). -/
def SlotState.isDone : SlotState → Bool
  | .done _ _ => true
  | .awaiting _ _ => false

/-- Slot state after the connect and send phases
(citus_tools.c:398-457): a failed connect records "failed to connect" and
releases the slot; a failed send records the connection's error message and
closes the connection; otherwise the slot enters the poll loop. -/
def initSlot (nodeName : String) (nodePort : Int) (behavior : ParBehavior) : SlotState :=
  match behavior with
  | .connectFail =>
    .done false ("failed to connect to " ++ nodeName ++ ":" ++ toString nodePort)
  | .sendFail connErrorMessage => .done false (StoreErrorMessage connErrorMessage)
  | .poll busy outcome => .awaiting busy outcome

/-- One visit of the poll loop to one slot (citus_tools.c:462-483): a done
slot is skipped; a busy slot stays busy one sweep less; a slot whose result
is ready records `GetConnectionStatusAndResult` and closes its connection. -/
def sweepSlot : SlotState → SlotState
  | .done success result => .done success result
  | .awaiting (n + 1) outcome => .awaiting n outcome
  | .awaiting 0 outcome =>
    match GetConnectionStatusAndResult outcome with
    | (success, result) => .done success result

/-- Termination measure for the poll loop: sweeps still needed by a slot. -/
def slotMeasure : SlotState → Nat
  | .done _ _ => 0
  | .awaiting busy _ => busy + 1

/-- Termination measure for the poll loop over all slots. -/
def slotsMeasure (slots : List SlotState) : Nat :=
  (slots.map slotMeasure).sum

/-- The poll loop of the parallel executor (citus_tools.c:460-492): while
some slot is unfinished, sweep every slot.  `fuel` bounds the number of
sweeps; `slotsMeasure` fuel is always enough (proved below), matching the C
loop's `while (finishedCount < commandCount)`. -/
def pollLoop : Nat → List SlotState → List SlotState
  | 0, slots => slots
  | fuel + 1, slots =>
    if slots.all SlotState.isDone then slots
    else pollLoop fuel (slots.map sweepSlot)

/-- Read the recorded outcome out of a finished slot (the poll loop never
leaves a slot unfinished; the default is never reached). -/
def slotOutcome : SlotState → Bool × String
  | .done success result => (success, result)
  | .awaiting _ _ => (false, "")

/-- Embedding of `ExecuteCommandsInParallelAndStoreResults`
(citus_tools.c:388-495): initialise every slot through the connect and send
phases, run the poll loop to completion, and read off the recorded
status/result pairs in index order. -/
def ExecuteCommandsInParallelAndStoreResults (nodeNameArray : List String)
    (nodePortArray : List Int) (env : Nat → ParBehavior)
    (commandCount : Nat) : List (Bool × String) :=
  let slots := (List.range commandCount).map fun commandIndex =>
    initSlot (nodeNameArray.getD commandIndex "")
      (nodePortArray.getD commandIndex 0) (env commandIndex)
  (pollLoop (slotsMeasure slots) slots).map slotOutcome

/-- The outcome a slot will eventually record, independent of how many
sweeps it stays busy. -/
def slotFinal : SlotState → Bool × String
  | .done success result => (success, result)
  | .awaiting _ outcome => GetConnectionStatusAndResult outcome

/-- The status/result pair the parallel executor records for one command,
as a function of that command's behaviour alone. -/
def parOutcome (nodeName : String) (nodePort : Int) (behavior : ParBehavior) :
    Bool × String :=
  slotFinal (initSlot nodeName nodePort behavior)

theorem slotFinal_sweepSlot (s : SlotState) : slotFinal (sweepSlot s) = slotFinal s := by
  match s with
  | .done b r => rfl
  | .awaiting (n + 1) o => rfl
  | .awaiting 0 o =>
    simp only [sweepSlot, slotFinal]

theorem slotMeasure_sweepSlot_le (s : SlotState) :
    slotMeasure (sweepSlot s) ≤ slotMeasure s := by
  match s with
  | .done b r => exact Nat.le_refl _
  | .awaiting (n + 1) o => exact Nat.le_succ _
  | .awaiting 0 o =>
    simp only [sweepSlot, slotMeasure]
    rcases GetConnectionStatusAndResult o with ⟨b, r⟩
    exact Nat.zero_le _

theorem slotMeasure_sweepSlot_lt (s : SlotState) (h : s.isDone = false) :
    slotMeasure (sweepSlot s) < slotMeasure s := by
  match s with
  | .done b r => simp [SlotState.isDone] at h
  | .awaiting (n + 1) o => exact Nat.lt_succ_self _
  | .awaiting 0 o =>
    simp only [sweepSlot, slotMeasure]
    rcases GetConnectionStatusAndResult o with ⟨b, r⟩
    exact Nat.zero_lt_succ _

theorem slotsMeasure_cons (s : SlotState) (rest : List SlotState) :
    slotsMeasure (s :: rest) = slotMeasure s + slotsMeasure rest := by
  simp [slotsMeasure]

theorem slotsMeasure_sweep_le (slots : List SlotState) :
    slotsMeasure (slots.map sweepSlot) ≤ slotsMeasure slots := by
  induction slots with
  | nil => exact Nat.le_refl _
  | cons s rest ih =>
    rw [List.map_cons, slotsMeasure_cons, slotsMeasure_cons]
    exact Nat.add_le_add (slotMeasure_sweepSlot_le s) ih

theorem slotsMeasure_sweep_lt (slots : List SlotState)
    (h : slots.all SlotState.isDone = false) :
    slotsMeasure (slots.map sweepSlot) < slotsMeasure slots := by
  induction slots with
  | nil => simp [List.all_nil] at h
  | cons s rest ih =>
    simp only [List.all_cons, Bool.and_eq_false_iff] at h
    rw [List.map_cons, slotsMeasure_cons, slotsMeasure_cons]
    rcases h with h | h
    · exact Nat.add_lt_add_of_lt_of_le (slotMeasure_sweepSlot_lt s h)
        (slotsMeasure_sweep_le rest)
    · exact Nat.add_lt_add_of_le_of_lt (slotMeasure_sweepSlot_le s) (ih h)

theorem slotMeasure_zero_done (s : SlotState) (h : slotMeasure s = 0) :
    s.isDone = true := by
  match s with
  | .done b r => rfl
  | .awaiting n o => simp [slotMeasure] at h

/-- With `slotsMeasure slots` fuel the poll loop finishes every slot and
records exactly each slot's eventual outcome. -/
theorem pollLoop_spec (fuel : Nat) :
    ∀ slots : List SlotState, slotsMeasure slots ≤ fuel →
      (pollLoop fuel slots).map slotOutcome = slots.map slotFinal := by
  induction fuel with
  | zero =>
    intro slots h
    have hall : ∀ s ∈ slots, s.isDone = true := by
      intro s hs
      apply slotMeasure_zero_done
      have : slotMeasure s ≤ slotsMeasure slots := by
        have := List.le_sum_of_mem (List.mem_map_of_mem slotMeasure hs)
        exact this
      omega
    simp only [pollLoop]
    apply List.map_congr_left
    intro s hs
    have := hall s hs
    match s, this with
    | .done b r, _ => rfl
  | succ n ih =>
    intro slots h
    simp only [pollLoop]
    by_cases hall : slots.all SlotState.isDone
    · simp only [hall, if_true]
      apply List.map_congr_left
      intro s hs
      have := List.all_eq_true.mp hall s hs
      match s, this with
      | .done b r, _ => rfl
    · have hall' : slots.all SlotState.isDone = false := by
        simpa using hall
      simp only [hall', Bool.false_eq_true, if_false]
      have hlt := slotsMeasure_sweep_lt slots hall'
      have := ih (slots.map sweepSlot) (by omega)
      rw [this, List.map_map]
      apply List.map_congr_left
      intro s _
      exact slotFinal_sweepSlot s

/-- The parallel executor records, at each index, the outcome determined by
that command's behaviour alone — independent of all other commands and of
the number of busy sweeps (the completion order). -/
theorem ExecuteCommandsInParallelAndStoreResults_eq (nodeNameArray : List String)
    (nodePortArray : List Int) (env : Nat → ParBehavior) (commandCount : Nat) :
    ExecuteCommandsInParallelAndStoreResults nodeNameArray nodePortArray env
        commandCount =
      (List.range commandCount).map fun commandIndex =>
        parOutcome (nodeNameArray.getD commandIndex "")
          (nodePortArray.getD commandIndex 0) (env commandIndex) := by
  unfold ExecuteCommandsInParallelAndStoreResults
  rw [pollLoop_spec _ _ (Nat.le_refl _), List.map_map]
  rfl

/-! ## `master_run_on_worker`: validation, execution, result-set building -/

/-- One output row of `master_run_on_worker`
(node_name, node_port, success, result). -/
structure Row where
  nodeName : String
  nodePort : Int
  success : Bool
  result : String
deriving DecidableEq

/-- Embedding of `CreateTupleStore` (citus_tools.c:705-736): one output row
per command index, reading the name, port, status and result arrays at that
index. -/
def CreateTupleStore (nodeNameArray : List String) (nodePortArray : List Int)
    (statusArray : List Bool) (resultArray : List String)
    (commandCount : Nat) : List Row :=
  (List.range commandCount).map fun commandIndex =>
    { nodeName := nodeNameArray.getD commandIndex ""
      nodePort := nodePortArray.getD commandIndex 0
      success := statusArray.getD commandIndex false
      result := resultArray.getD commandIndex "" }

/-- The PostgreSQL attribute type oids `master_run_on_worker` checks its
expected tuple descriptor against (citus_tools.c:276-280): `TEXTOID`,
`INT4OID`, `BOOLOID`, or any other oid. -/
inductive PgAttrType where
  | textOid
  | int4Oid
  | boolOid
  | otherOid
deriving DecidableEq

/-- The caller-side context of a `master_run_on_worker` call:
whether `fcinfo->resultinfo` is set, whether the caller's `allowedModes`
admit `SFRM_Materialize`, and the expected return tuple descriptor
(`rsinfo->expectedDesc`), given as its attribute type oids. -/
structure CallContext where
  hasResultInfo : Bool
  allowsMaterialize : Bool
  expectedDesc : List PgAttrType
deriving DecidableEq

/-- The errors with which `master_run_on_worker` aborts as a whole:
"materialize mode required, but it is not allowed in this context"
(citus_tools.c:256-262), "expected same number of node name, port, and
query string" (citus_tools.c:345-350), and "query-specified return tuple
and function return type are not compatible" (citus_tools.c:276-286). -/
inductive RunOnWorkerError where
  | materializeModeRequired
  | arrayLengthMismatch
  | returnTupleNotCompatible
deriving DecidableEq

/-- Embedding of `master_run_on_worker` (citus_tools.c:244-325) together
with `ParseCommandParameters` (citus_tools.c:329-378).  In source order: the
materialize-context check, then `ParseCommandParameters` (which errors when
the three input arrays differ in length), then the tuple-descriptor check;
only then are the commands executed — by the parallel executor when
`parallelExecution`, by the sequential one otherwise — and the result rows
assembled by `CreateTupleStore`. -/
def master_run_on_worker (ctx : CallContext) (nodeNameArray : List String)
    (nodePortArray : List Int) (commandStringArray : List String)
    (parallelExecution : Bool) (seqEnv : Nat → SeqBehavior)
    (parEnv : Nat → ParBehavior) : Except RunOnWorkerError (List Row) :=
  if ¬ (ctx.hasResultInfo = true ∧ ctx.allowsMaterialize = true) then
    .error .materializeModeRequired
  else if ¬ (nodeNameArray.length = nodePortArray.length ∧
      nodeNameArray.length = commandStringArray.length) then
    .error .arrayLengthMismatch
  else if ¬ (ctx.expectedDesc =
      [PgAttrType.textOid, PgAttrType.int4Oid, PgAttrType.boolOid,
        PgAttrType.textOid]) then
    .error .returnTupleNotCompatible
  else
    let commandCount := nodeNameArray.length
    let outcomes :=
      if parallelExecution then
        ExecuteCommandsInParallelAndStoreResults nodeNameArray nodePortArray
          parEnv commandCount
      else
        ExecuteCommandsAndStoreResults nodeNameArray nodePortArray seqEnv
          commandCount
    .ok (CreateTupleStore nodeNameArray nodePortArray
      (outcomes.map Prod.fst) (outcomes.map Prod.snd) commandCount)

/-! ## Connectivity matrix engine -/

/-- A cluster member, as the matrix engine uses it: `workerName` and
`workerPort` (the only fields of `WorkerNode` that
`StoreAllConnectivityChecks` reads). -/
structure WorkerNode where
  workerName : String
  workerPort : Int
deriving DecidableEq

/-- Modelled from the spec: `CompareWorkerNodes` (declared in
`worker_manager.h`, not under src/) is the comparator `SortList` uses; the
spec says the node list is sorted "by the deterministic (name, port) order",
i.e. by name first and port second. -/
def nodeLe (a b : WorkerNode) : Prop :=
  a.workerName < b.workerName ∨
    (a.workerName = b.workerName ∧ a.workerPort ≤ b.workerPort)

instance : DecidableRel nodeLe := fun a b => by
  unfold nodeLe
  infer_instance

/-- Modelled from the spec: `SortList` (from `listutils.c`, not under src/)
sorts the node list with the comparator; since `nodeLe` is a total order in
which ties only happen between equal nodes, any correct sort yields the one
sorted permutation, here given by insertion sort. -/
def SortList (l : List WorkerNode) : List WorkerNode :=
  List.insertionSort nodeLe l

/-- Result of one probe round-trip
(`ExecuteOptionalRemoteCommand(connectionToSourceNode, ...)` followed by
`ParseBoolField(result, 0, 0)`): either the execution result is not
`RESPONSE_OKAY`, or it is and the source node reported `reported` about
reaching the target. -/
inductive ProbeResult where
  | notOkay
  | okay (reported : Bool)
deriving DecidableEq

/-- One output row of `citus_check_cluster_node_health`:
(from_nodename, from_nodeport, to_nodename, to_nodeport, result);
`success = none` models the SQL NULL result column. -/
structure ConnectivityRow where
  sourceName : String
  sourcePort : Int
  targetName : String
  targetPort : Int
  success : Option Bool
deriving DecidableEq

/-- The row `StoreAllConnectivityChecks` emits for one (source, target)
pair (citus_tools.c:199-227): the success column is NULL when the probe's
execution result is not `RESPONSE_OKAY`, and otherwise the boolean parsed
from the probe's result. -/
def connectivityRow (source target : WorkerNode) (executionResult : ProbeResult) :
    ConnectivityRow :=
  { sourceName := source.workerName
    sourcePort := source.workerPort
    targetName := target.workerName
    targetPort := target.workerPort
    success :=
      match executionResult with
      | .notOkay => none
      | .okay reported => some reported }

/-- Embedding of `StoreAllConnectivityChecks` (citus_tools.c:152-233): sort
the active readable node list, then for every source node (outer loop) and
every target node (inner loop) run the probe on the source's connection and
emit one row.  `probe` is the oracle for the round-trip from the controller
through the source towards the target. -/
def StoreAllConnectivityChecks (activeReadableNodeList : List WorkerNode)
    (probe : WorkerNode → WorkerNode → ProbeResult) : List ConnectivityRow :=
  let workerNodeList := SortList activeReadableNodeList
  workerNodeList.flatMap fun sourceWorkerNode =>
    workerNodeList.map fun targetWorkerNode =>
      connectivityRow sourceWorkerNode targetWorkerNode
        (probe sourceWorkerNode targetWorkerNode)

/-! ## Connection flags

`citus_tools.c` opens connections at four places, with a local
`connectionFlags` that is either `0` or `FORCE_NEW_CONNECTION`.  Each
constant below embeds one of those locals as the set of flags passed. -/

/-- The one connection flag `citus_tools.c` ever sets:
`FORCE_NEW_CONNECTION`. -/
inductive ConnFlag where
  | forceNew
deriving DecidableEq

/-- `connectionFlags` passed by `CheckConnectionToNode`
(citus_tools.c:95-96): `0`, i.e. no flags. -/
def checkConnectionToNodeConnectionFlags : List ConnFlag := []

/-- `connectionFlags` passed by `StoreAllConnectivityChecks` when opening
the per-source connection (citus_tools.c:177-181): `0`, i.e. no flags. -/
def storeAllConnectivityChecksConnectionFlags : List ConnFlag := []

/-- `connectionFlags` passed by the parallel executor
`ExecuteCommandsInParallelAndStoreResults` when starting each command's
connection (citus_tools.c:403-405): `FORCE_NEW_CONNECTION`. -/
def executeCommandsInParallelConnectionFlags : List ConnFlag := [ConnFlag.forceNew]

/-- `connectionFlags` passed by the sequential executor's
`ExecuteRemoteQueryOrCommand` (citus_tools.c:673-675):
`FORCE_NEW_CONNECTION`. -/
def executeRemoteQueryOrCommandConnectionFlags : List ConnFlag := [ConnFlag.forceNew]

/-! ## Cancellation and connection lifecycle

The poll loop of the parallel executor checks for interrupts once per sweep
(`CHECK_FOR_INTERRUPTS()`, citus_tools.c:485), after visiting all slots and
before sleeping.  A pending interrupt raises out of the loop; the C code
runs no `CloseConnection` on that path, so the connections of the slots
still awaiting results stay open. -/

/-- The poll loop with its interrupt check made explicit
(citus_tools.c:460-492).  `interruptPending k` models whether
`CHECK_FOR_INTERRUPTS()` raises at the end of sweep `k`; when it does, the
loop is abandoned (`.error`) with the slot states exactly as they are at
that moment — no close of the still-open connections happens on this path. -/
def pollLoopWithCancellation : Nat → Nat → (Nat → Bool) → List SlotState →
    Except (List SlotState) (List SlotState)
  | 0, _, _, slots => .ok slots
  | fuel + 1, sweepIndex, interruptPending, slots =>
    if slots.all SlotState.isDone then .ok slots
    else
      let swept := slots.map sweepSlot
      if interruptPending sweepIndex then .error swept
      else pollLoopWithCancellation fuel (sweepIndex + 1) interruptPending swept

/-- The parallel executor with the poll loop's cancellation check explicit:
on cancellation the result is `.error` carrying the slot states at the
moment the interrupt propagated. -/
def ExecuteCommandsInParallelWithCancellation (nodeNameArray : List String)
    (nodePortArray : List Int) (env : Nat → ParBehavior) (commandCount : Nat)
    (interruptPending : Nat → Bool) :
    Except (List SlotState) (List (Bool × String)) :=
  let slots := (List.range commandCount).map fun commandIndex =>
    initSlot (nodeNameArray.getD commandIndex "")
      (nodePortArray.getD commandIndex 0) (env commandIndex)
  (pollLoopWithCancellation (slotsMeasure slots) 0 interruptPending slots).map
    (List.map slotOutcome)

/-- Number of slots whose connections are still open (their
`connectionArray` entry is not NULL): the slots still awaiting results. -/
def openConnectionCount (slots : List SlotState) : Nat :=
  (slots.filter (fun s => ! s.isDone)).length

/-- Number of `CloseConnection` calls `ExecuteRemoteQueryOrCommand`
performs on its connection, by behaviour: the early return for a connection
failure (citus_tools.c:678-683) and the early return for a send failure
(citus_tools.c:685-690) both skip the `CloseConnection(connection)` at
citus_tools.c:698; only the path that obtains a result reaches it. -/
def executeRemoteQueryOrCommandCloseCount : SeqBehavior → Nat
  | .connectFail => 0
  | .sendFail => 0
  | .response _ _ => 1

/-- Number of `CloseConnection` calls the parallel executor performs on one
command's connection, by behaviour, when the poll loop runs to completion:
a failed connect only NULLs the `connectionArray` entry
(citus_tools.c:418-425, no close); a failed send closes
(citus_tools.c:453); a polled result closes (citus_tools.c:481). -/
def parallelExecutorCloseCount : ParBehavior → Nat
  | .connectFail => 0
  | .sendFail _ => 1
  | .poll _ _ => 1

/-! ## Helper lemmas -/

theorem getD_map_range {α : Type} (K : Nat) (f : Nat → α) (i : Nat)
    (hi : i < K) (d : α) : ((List.range K).map f).getD i d = f i := by
  rw [List.getD_eq_getElem?_getD, List.getElem?_map, List.getElem?_range hi]
  rfl

theorem map_range_getD {α : Type} (l : List α) (d : α) :
    (List.range l.length).map (fun i => l.getD i d) = l := by
  apply List.ext_getElem
  · simp
  · intro i h1 h2
    simp only [List.getElem_map, List.getElem_range]
    rw [List.getD_eq_getElem?_getD, List.getElem?_eq_getElem h2]
    rfl

theorem countP_range_eq_one (K i : Nat) (q : Nat → Bool) (hi : i < K)
    (hq : q i = true) (hother : ∀ j, j < K → j ≠ i → q j = false) :
    (List.range K).countP q = 1 := by
  induction K with
  | zero => omega
  | succ n ih =>
    rw [List.range_succ, List.countP_append]
    rcases Nat.lt_or_ge i n with h | h
    · rw [ih h (fun j hj => hother j (Nat.lt_succ_of_lt hj))]
      have : q n = false := hother n (Nat.lt_succ_self n) (by omega)
      simp [List.countP_cons, this]
    · have : i = n := by omega
      subst this
      have hz : (List.range i).countP q = 0 := by
        rw [List.countP_eq_zero]
        intro j hj
        simp only [List.mem_range] at hj
        simp [hother j (Nat.lt_succ_of_lt hj) (by omega)]
      simp [hz, List.countP_cons, hq]

/-- The status/result pair command `j` ends with, for either execution
mode: the sequential `ExecuteRemoteQueryOrCommand` when `parallel = false`,
the parallel executor's per-slot outcome when `parallel = true`. -/
def ownOutcome (parallel : Bool) (seqEnv : Nat → SeqBehavior)
    (parEnv : Nat → ParBehavior) (nodeName : String) (nodePort : Int)
    (j : Nat) : Bool × String :=
  if parallel then parOutcome nodeName nodePort (parEnv j)
  else ExecuteRemoteQueryOrCommand nodeName nodePort (seqEnv j)

/-- The outcome list either executor produces, in index order. -/
def runOutcomes (nodeNameArray : List String) (nodePortArray : List Int)
    (parallel : Bool) (seqEnv : Nat → SeqBehavior)
    (parEnv : Nat → ParBehavior) : List (Bool × String) :=
  (List.range nodeNameArray.length).map fun j =>
    ownOutcome parallel seqEnv parEnv (nodeNameArray.getD j "")
      (nodePortArray.getD j 0) j

theorem executor_outcomes_eq (nodeNameArray : List String)
    (nodePortArray : List Int) (parallel : Bool) (seqEnv : Nat → SeqBehavior)
    (parEnv : Nat → ParBehavior) :
    (if parallel then
        ExecuteCommandsInParallelAndStoreResults nodeNameArray nodePortArray
          parEnv nodeNameArray.length
      else
        ExecuteCommandsAndStoreResults nodeNameArray nodePortArray seqEnv
          nodeNameArray.length) =
      runOutcomes nodeNameArray nodePortArray parallel seqEnv parEnv := by
  cases parallel with
  | false =>
    simp only [if_false, Bool.false_eq_true]
    rfl
  | true =>
    simp only [if_true]
    rw [ExecuteCommandsInParallelAndStoreResults_eq]
    rfl

/-- After the three validation checks pass, `master_run_on_worker` returns
the rows built by `CreateTupleStore` from the executor outcomes. -/
theorem master_run_on_worker_ok (ctx : CallContext)
    (nodeNameArray : List String) (nodePortArray : List Int)
    (commandStringArray : List String) (parallel : Bool)
    (seqEnv : Nat → SeqBehavior) (parEnv : Nat → ParBehavior)
    (hctx : ctx.hasResultInfo = true ∧ ctx.allowsMaterialize = true)
    (hlen : nodeNameArray.length = nodePortArray.length ∧
      nodeNameArray.length = commandStringArray.length)
    (hdesc : ctx.expectedDesc =
      [PgAttrType.textOid, PgAttrType.int4Oid, PgAttrType.boolOid,
        PgAttrType.textOid]) :
    master_run_on_worker ctx nodeNameArray nodePortArray commandStringArray
        parallel seqEnv parEnv =
      .ok (CreateTupleStore nodeNameArray nodePortArray
        ((runOutcomes nodeNameArray nodePortArray parallel seqEnv
            parEnv).map Prod.fst)
        ((runOutcomes nodeNameArray nodePortArray parallel seqEnv
            parEnv).map Prod.snd)
        nodeNameArray.length) := by
  unfold master_run_on_worker
  rw [if_neg (not_not_intro hctx), if_neg (not_not_intro hlen),
    if_neg (not_not_intro hdesc)]
  rw [← executor_outcomes_eq nodeNameArray nodePortArray parallel seqEnv parEnv]

theorem createTupleStore_runOutcomes_getD (nodeNameArray : List String)
    (nodePortArray : List Int) (parallel : Bool) (seqEnv : Nat → SeqBehavior)
    (parEnv : Nat → ParBehavior) (j : Nat) (hj : j < nodeNameArray.length)
    (d : Row) :
    (CreateTupleStore nodeNameArray nodePortArray
        ((runOutcomes nodeNameArray nodePortArray parallel seqEnv
            parEnv).map Prod.fst)
        ((runOutcomes nodeNameArray nodePortArray parallel seqEnv
            parEnv).map Prod.snd)
        nodeNameArray.length).getD j d =
      { nodeName := nodeNameArray.getD j ""
        nodePort := nodePortArray.getD j 0
        success := (ownOutcome parallel seqEnv parEnv (nodeNameArray.getD j "")
          (nodePortArray.getD j 0) j).1
        result := (ownOutcome parallel seqEnv parEnv (nodeNameArray.getD j "")
          (nodePortArray.getD j 0) j).2 } := by
  unfold CreateTupleStore
  rw [getD_map_range _ _ j hj]
  unfold runOutcomes
  rw [List.map_map, List.map_map, getD_map_range _ _ j hj, getD_map_range _ _ j hj]
  rfl

/-- A call context that passes all of `master_run_on_worker`'s structural
checks: a result info that allows materialization, and the expected
(text, int4, bool, text) return tuple. -/
def goodCtx : CallContext :=
  { hasResultInfo := true
    allowsMaterialize := true
    expectedDesc := [PgAttrType.textOid, PgAttrType.int4Oid, PgAttrType.boolOid,
      PgAttrType.textOid] }

/-- A network in which every command round-trips successfully (sequential
executor's view). -/
def seqEnvOk : Nat → SeqBehavior :=
  fun _ => SeqBehavior.response none (PGresultModel.commandOk "SELECT 1")

/-- A network in which every command round-trips successfully (parallel
executor's view). -/
def parEnvOk : Nat → ParBehavior :=
  fun _ => ParBehavior.poll 0 (PollOutcome.response none
    (PGresultModel.commandOk "SELECT 1"))

/-! ## The claims -/

/-- C1: for every valid input of size K to `master_run_on_worker` — K node
names, K ports, K commands — the call returns exactly K result rows, and
for every index i the node name and port of output row i equal the node
name and port of input row i, regardless of whether `parallel` is true or
false and regardless of the order in which commands complete (the sequential
and parallel behaviour oracles are universally quantified, so every
completion order is covered). -/
theorem runOnNodes_returns_input_order_rows (ctx : CallContext)
    (nodeNameArray : List String) (nodePortArray : List Int)
    (commandStringArray : List String) (parallel : Bool)
    (seqEnv : Nat → SeqBehavior) (parEnv : Nat → ParBehavior)
    (hctx : ctx.hasResultInfo = true ∧ ctx.allowsMaterialize = true)
    (hlen : nodeNameArray.length = nodePortArray.length ∧
      nodeNameArray.length = commandStringArray.length)
    (hdesc : ctx.expectedDesc =
      [PgAttrType.textOid, PgAttrType.int4Oid, PgAttrType.boolOid,
        PgAttrType.textOid]) :
    ∃ rows : List Row,
      master_run_on_worker ctx nodeNameArray nodePortArray commandStringArray
          parallel seqEnv parEnv = .ok rows ∧
      rows.length = nodeNameArray.length ∧
      rows.map Row.nodeName = nodeNameArray ∧
      rows.map Row.nodePort = nodePortArray := by
  refine ⟨_, master_run_on_worker_ok ctx nodeNameArray nodePortArray
    commandStringArray parallel seqEnv parEnv hctx hlen hdesc, ?_, ?_, ?_⟩
  · unfold CreateTupleStore
    simp
  · unfold CreateTupleStore
    rw [List.map_map]
    exact map_range_getD nodeNameArray ""
  · unfold CreateTupleStore
    rw [List.map_map, hlen.1]
    exact map_range_getD nodePortArray 0

/-- Witness for C1 at a concrete input of size 2. -/
theorem runOnNodes_returns_input_order_rows_witness :
    ∃ rows : List Row,
      master_run_on_worker goodCtx ["w1", "w2"] [11, 22] ["q1", "q2"] true
          seqEnvOk parEnvOk = .ok rows ∧
      rows.length = 2 ∧
      rows.map Row.nodeName = ["w1", "w2"] ∧
      rows.map Row.nodePort = [11, 22] :=
  runOnNodes_returns_input_order_rows goodCtx ["w1", "w2"] [11, 22]
    ["q1", "q2"] true seqEnvOk parEnvOk ⟨rfl, rfl⟩ ⟨rfl, rfl⟩ rfl

/-- C5: `master_run_on_worker` fails as a whole — returning an error and no
rows, with no command executed — in exactly the structural cases: the
caller's context cannot accept a materialized result set, the three input
arrays differ in length, or the expected output shape is not the four
columns (text, integer, boolean, text) in that order. -/
theorem master_run_on_worker_fails_iff_structural (ctx : CallContext)
    (nodeNameArray : List String) (nodePortArray : List Int)
    (commandStringArray : List String) (parallel : Bool)
    (seqEnv : Nat → SeqBehavior) (parEnv : Nat → ParBehavior) :
    (∃ e, master_run_on_worker ctx nodeNameArray nodePortArray
        commandStringArray parallel seqEnv parEnv = .error e) ↔
      (¬ (ctx.hasResultInfo = true ∧ ctx.allowsMaterialize = true) ∨
        ¬ (nodeNameArray.length = nodePortArray.length ∧
          nodeNameArray.length = commandStringArray.length) ∨
        ¬ (ctx.expectedDesc =
          [PgAttrType.textOid, PgAttrType.int4Oid, PgAttrType.boolOid,
            PgAttrType.textOid])) := by
  unfold master_run_on_worker
  split_ifs with h1 h2 h3 <;> simp_all
  omega

/-- C4: for every response that returns rows (`PGRES_TUPLES_OK`), the
result evaluator enforces the single-column / single-row contract in this
order: a column count other than 1 yields the single-column error (even
when the row count is also wrong — the row count is not consulted); with
exactly one column, more than one row yields the single-row error;
otherwise success with the single cell's value, the empty string when the
cell is null or absent. -/
theorem evaluateQueryResult_shape_contract (connErrorMessage : Option String)
    (nfields : Nat) (rows : List (List (Option String))) :
    (nfields ≠ 1 →
      EvaluateQueryResult connErrorMessage (.tuplesOk nfields rows) =
        (false, "expected a single column in query target")) ∧
    (nfields = 1 → 1 < rows.length →
      EvaluateQueryResult connErrorMessage (.tuplesOk nfields rows) =
        (false, "expected a single row in query result")) ∧
    (nfields = 1 → rows.length ≤ 1 →
      EvaluateQueryResult connErrorMessage (.tuplesOk nfields rows) =
        (true, ((rows.headD []).headD none).getD "")) := by
  refine ⟨?_, ?_, ?_⟩
  · intro h
    simp [EvaluateQueryResult, h]
  · intro h1 h2
    subst h1
    simp [EvaluateQueryResult, h2]
  · intro h1 h2
    subst h1
    rcases rows with _ | ⟨r, rest⟩
    · simp [EvaluateQueryResult, PQgetisnull]
    · rcases rest with _ | ⟨r2, rs⟩
      · rcases r with _ | ⟨c, cs⟩
        · simp [EvaluateQueryResult, PQgetisnull]
        · rcases c with _ | v
          · simp [EvaluateQueryResult, PQgetisnull]
          · simp [EvaluateQueryResult, PQgetisnull, PQgetvalue]
      · simp at h2

/-- Witness for C4: a two-column result is rejected with the single-column
message even though it also has two rows. -/
theorem evaluateQueryResult_shape_contract_witness :
    EvaluateQueryResult none
        (.tuplesOk 2 [[some "a"], [some "b"]]) =
      (false, "expected a single column in query target") :=
  (evaluateQueryResult_shape_contract none 2 [[some "a"], [some "b"]]).1
    (by decide)

/-- C10: a `PGRES_TUPLES_OK` response with exactly one column and zero rows
is reported as a success with an empty result string, not as a shape
error. -/
theorem evaluateQueryResult_zero_rows_success (connErrorMessage : Option String) :
    EvaluateQueryResult connErrorMessage (.tuplesOk 1 []) = (true, "") := rfl

theorem truncateAtLineBreak_spec (l : List Char) :
    ∃ rest, l = truncateAtLineBreak l ++ rest ∧
      '\n' ∉ truncateAtLineBreak l ∧
      (rest = [] ∨ ∃ tail, rest = '\n' :: tail) := by
  induction l with
  | nil => exact ⟨[], rfl, by simp [truncateAtLineBreak], Or.inl rfl⟩
  | cons c cs ih =>
    by_cases hc : c = '\n'
    · subst hc
      refine ⟨'\n' :: cs, ?_, ?_, Or.inr ⟨cs, rfl⟩⟩
      · simp [truncateAtLineBreak]
      · simp [truncateAtLineBreak]
    · obtain ⟨rest, h1, h2, h3⟩ := ih
      refine ⟨rest, ?_, ?_, h3⟩
      · simp only [truncateAtLineBreak, if_neg hc, List.cons_append]
        exact congrArg (c :: ·) h1
      · simp only [truncateAtLineBreak, if_neg hc, List.mem_cons]
        rintro (h | h)
        · exact hc h.symm
        · exact h2 h

/-- C9: when a remote response signals a remote-side execution error
(`PQresultStatus` neither `PGRES_COMMAND_OK` nor `PGRES_TUPLES_OK`), the
recorded outcome has success = false and its text is the remote error
message truncated at its first line break (the kept text is a prefix of the
message, contains no line break, and the dropped remainder is empty or
starts with the line break); when the connection reports no message, the
recorded outcome is success = false with the generic fallback text.  Both
executors record exactly this evaluator classification for such a
response: the sequential `ExecuteRemoteQueryOrCommand` on its response
path, and the parallel executor via `GetConnectionStatusAndResult`. -/
theorem remote_error_records_failure_with_truncated_message (m : String) :
    (EvaluateQueryResult (some m) .otherError).1 = false ∧
    (∃ rest, m.data = (EvaluateQueryResult (some m) .otherError).2.data ++ rest ∧
      '\n' ∉ (EvaluateQueryResult (some m) .otherError).2.data ∧
      (rest = [] ∨ ∃ tail, rest = '\n' :: tail)) ∧
    EvaluateQueryResult none .otherError =
      (false, "An error occurred while running the query") ∧
    (∀ (nodeName : String) (nodePort : Int) (e : Option String),
      ExecuteRemoteQueryOrCommand nodeName nodePort (.response e .otherError) =
        EvaluateQueryResult e .otherError) ∧
    (∀ e : Option String,
      GetConnectionStatusAndResult (.response e .otherError) =
        EvaluateQueryResult e .otherError) :=
  ⟨rfl, truncateAtLineBreak_spec m.data, rfl, fun _ _ _ => rfl, fun _ => rfl⟩

instance : IsTrans WorkerNode nodeLe where
  trans a b c hab hbc := by
    rcases hab with h1 | ⟨e1, p1⟩
    · rcases hbc with h2 | ⟨e2, p2⟩
      · exact Or.inl (lt_trans h1 h2)
      · exact Or.inl (e2 ▸ h1)
    · rcases hbc with h2 | ⟨e2, p2⟩
      · exact Or.inl (e1 ▸ h2)
      · exact Or.inr ⟨e1.trans e2, le_trans p1 p2⟩

instance : IsTotal WorkerNode nodeLe where
  total a b := by
    rcases lt_trichotomy a.workerName b.workerName with h | h | h
    · exact Or.inl (Or.inl h)
    · rcases le_total a.workerPort b.workerPort with hp | hp
      · exact Or.inl (Or.inr ⟨h, hp⟩)
      · exact Or.inr (Or.inr ⟨h.symm, hp⟩)
    · exact Or.inr (Or.inl h)

/-- The matrix is the nested-order image of the sorted node list's cartesian
square. -/
theorem storeAllConnectivityChecks_eq_product (nodes : List WorkerNode)
    (probe : WorkerNode → WorkerNode → ProbeResult) :
    StoreAllConnectivityChecks nodes probe =
      ((SortList nodes) ×ˢ (SortList nodes)).map
        (fun st => connectivityRow st.1 st.2 (probe st.1 st.2)) := by
  unfold StoreAllConnectivityChecks
  simp only [SProd.sprod, List.product, List.map_flatMap, List.map_map]
  rfl

theorem nodePairProj_injective :
    Function.Injective (fun st : WorkerNode × WorkerNode =>
      ((st.1.workerName, st.1.workerPort), (st.2.workerName, st.2.workerPort))) := by
  rintro ⟨⟨n1, p1⟩, ⟨n2, p2⟩⟩ ⟨⟨m1, q1⟩, ⟨m2, q2⟩⟩ h
  simp_all

/-- C2: a matrix cell's success field is null exactly when the probe
round-trip through the source did not come back `RESPONSE_OKAY`, and
otherwise equals the boolean the source reported; a node whose probes never
complete (unreachable from the controller) gives success-null on every row
where it is the source — unknown is never conflated with false. -/
theorem connectivity_cell_unknown_iff (nodes : List WorkerNode)
    (probe : WorkerNode → WorkerNode → ProbeResult) :
    (∀ row ∈ StoreAllConnectivityChecks nodes probe,
      ∃ s t : WorkerNode, s ∈ nodes ∧ t ∈ nodes ∧
        row = connectivityRow s t (probe s t) ∧
        (row.success = none ↔ probe s t = .notOkay) ∧
        (∀ b, probe s t = .okay b → row.success = some b)) ∧
    (∀ s : WorkerNode, (∀ t, probe s t = .notOkay) →
      ∀ row ∈ StoreAllConnectivityChecks nodes probe,
        row.sourceName = s.workerName → row.sourcePort = s.workerPort →
        row.success = none) := by
  constructor
  · intro row hrow
    rw [storeAllConnectivityChecks_eq_product] at hrow
    obtain ⟨⟨s, t⟩, hmem, hrow⟩ := List.mem_map.mp hrow
    obtain ⟨hs, ht⟩ := List.mem_product.mp hmem
    refine ⟨s, t, List.mem_insertionSort nodeLe |>.mp hs,
      List.mem_insertionSort nodeLe |>.mp ht, hrow.symm, ?_, ?_⟩
    · subst hrow
      cases h : probe s t <;> simp [connectivityRow, h]
    · intro b hb
      subst hrow
      simp [connectivityRow, hb]
  · intro s hs row hrow hname hport
    rw [storeAllConnectivityChecks_eq_product] at hrow
    obtain ⟨⟨s', t⟩, hmem, hrow⟩ := List.mem_map.mp hrow
    subst hrow
    have hs' : s' = s := by
      rcases s with ⟨sn, sp⟩
      rcases s' with ⟨sn', sp'⟩
      simp [connectivityRow] at hname hport
      simp [hname, hport]
    subst hs'
    simp [connectivityRow, hs t]

/-- C6: for an active readable node list of N distinct members, the
connectivity matrix has exactly N² rows, one per ordered (source, target)
pair with each pair present exactly once, in the deterministic nested order
over the node list sorted by the (name, port) total order (outer loop:
source, inner loop: target); when every probe completes reporting true,
every row has success true. -/
theorem checkClusterHealth_matrix_shape (nodes : List WorkerNode)
    (probe : WorkerNode → WorkerNode → ProbeResult)
    (hnodup : nodes.Nodup) :
    (StoreAllConnectivityChecks nodes probe).length =
      nodes.length * nodes.length ∧
    (SortList nodes).Perm nodes ∧
    List.Sorted nodeLe (SortList nodes) ∧
    (StoreAllConnectivityChecks nodes probe).map
        (fun row => ((row.sourceName, row.sourcePort),
          (row.targetName, row.targetPort))) =
      ((SortList nodes) ×ˢ (SortList nodes)).map
        (fun st => ((st.1.workerName, st.1.workerPort),
          (st.2.workerName, st.2.workerPort))) ∧
    ((StoreAllConnectivityChecks nodes probe).map
        (fun row => ((row.sourceName, row.sourcePort),
          (row.targetName, row.targetPort)))).Nodup ∧
    (∀ s t : WorkerNode, s ∈ nodes → t ∈ nodes →
      ((s.workerName, s.workerPort), (t.workerName, t.workerPort)) ∈
        (StoreAllConnectivityChecks nodes probe).map
          (fun row => ((row.sourceName, row.sourcePort),
            (row.targetName, row.targetPort)))) ∧
    ((∀ s t, probe s t = .okay true) →
      ∀ row ∈ StoreAllConnectivityChecks nodes probe,
        row.success = some true) := by
  have hperm : (SortList nodes).Perm nodes := List.perm_insertionSort nodeLe nodes
  have hsortNodup : (SortList nodes).Nodup := hperm.nodup_iff.mpr hnodup
  have hproj : (StoreAllConnectivityChecks nodes probe).map
      (fun row => ((row.sourceName, row.sourcePort),
        (row.targetName, row.targetPort))) =
      ((SortList nodes) ×ˢ (SortList nodes)).map
        (fun st => ((st.1.workerName, st.1.workerPort),
          (st.2.workerName, st.2.workerPort))) := by
    rw [storeAllConnectivityChecks_eq_product, List.map_map]
    rfl
  refine ⟨?_, hperm, List.sorted_insertionSort nodeLe nodes, hproj, ?_, ?_, ?_⟩
  · rw [storeAllConnectivityChecks_eq_product, List.length_map,
      List.length_product, hperm.length_eq]
  · rw [hproj]
    exact (hsortNodup.product hsortNodup).map nodePairProj_injective
  · intro s t hs ht
    rw [hproj]
    exact List.mem_map.mpr ⟨(s, t),
      List.mem_product.mpr ⟨(List.mem_insertionSort nodeLe).mpr hs,
        (List.mem_insertionSort nodeLe).mpr ht⟩, rfl⟩
  · intro hall row hrow
    rw [storeAllConnectivityChecks_eq_product] at hrow
    obtain ⟨⟨s, t⟩, _, hrow⟩ := List.mem_map.mp hrow
    subst hrow
    simp [connectivityRow, hall s t]

/-- Witness for C6 at a concrete two-node cluster with every probe
succeeding. -/
theorem checkClusterHealth_matrix_shape_witness :
    (StoreAllConnectivityChecks [⟨"b", 2⟩, ⟨"a", 1⟩]
        (fun _ _ => .okay true)).length = 2 * 2 ∧
    ∀ row ∈ StoreAllConnectivityChecks [⟨"b", 2⟩, ⟨"a", 1⟩]
        (fun _ _ => .okay true), row.success = some true := by
  obtain ⟨h1, _, _, _, _, _, h7⟩ :=
    checkClusterHealth_matrix_shape [⟨"b", 2⟩, ⟨"a", 1⟩]
      (fun _ _ => ProbeResult.okay true) (by decide)
  exact ⟨h1, h7 (fun _ _ => rfl)⟩

/-- The result rows of a run, as a direct map over the command indices. -/
theorem createTupleStore_runOutcomes_eq (nodeNameArray : List String)
    (nodePortArray : List Int) (parallel : Bool) (seqEnv : Nat → SeqBehavior)
    (parEnv : Nat → ParBehavior) :
    CreateTupleStore nodeNameArray nodePortArray
        ((runOutcomes nodeNameArray nodePortArray parallel seqEnv
            parEnv).map Prod.fst)
        ((runOutcomes nodeNameArray nodePortArray parallel seqEnv
            parEnv).map Prod.snd)
        nodeNameArray.length =
      (List.range nodeNameArray.length).map fun j =>
        { nodeName := nodeNameArray.getD j ""
          nodePort := nodePortArray.getD j 0
          success := (ownOutcome parallel seqEnv parEnv
            (nodeNameArray.getD j "") (nodePortArray.getD j 0) j).1
          result := (ownOutcome parallel seqEnv parEnv
            (nodeNameArray.getD j "") (nodePortArray.getD j 0) j).2 } := by
  unfold CreateTupleStore runOutcomes
  apply List.map_congr_left
  intro j hj
  simp only [List.mem_range] at hj
  rw [List.map_map, List.map_map, getD_map_range _ _ j hj,
    getD_map_range _ _ j hj]
  rfl

/-- A row that records a connection failure: success false and the
"failed to connect" message for its own node and port. -/
def isConnectFailureRow (row : Row) : Bool :=
  !row.success &&
    (row.result ==
      "failed to connect to " ++ row.nodeName ++ ":" ++ toString row.nodePort)

/-- C3: per-command failures are isolated in both executors: when exactly
command i's target is unreachable (its connection attempt fails) and no
other command's own outcome happens to look like a connect-failure row, the
run still returns K rows; row i has success false with the
"failed to connect to host:port" message; every other row j carries exactly
the outcome its own command produces (independent of command i); and
exactly one row is a connect-failure row.  No per-command error aborts the
batch: the run still returns `.ok`. -/
theorem runOnNodes_isolates_single_connect_failure (ctx : CallContext)
    (nodeNameArray : List String) (nodePortArray : List Int)
    (commandStringArray : List String) (parallel : Bool)
    (seqEnv : Nat → SeqBehavior) (parEnv : Nat → ParBehavior) (i : Nat)
    (hctx : ctx.hasResultInfo = true ∧ ctx.allowsMaterialize = true)
    (hlen : nodeNameArray.length = nodePortArray.length ∧
      nodeNameArray.length = commandStringArray.length)
    (hdesc : ctx.expectedDesc =
      [PgAttrType.textOid, PgAttrType.int4Oid, PgAttrType.boolOid,
        PgAttrType.textOid])
    (hi : i < nodeNameArray.length)
    (hseq : seqEnv i = .connectFail) (hpar : parEnv i = .connectFail)
    (hothers : ∀ j, j < nodeNameArray.length → j ≠ i →
      isConnectFailureRow
        { nodeName := nodeNameArray.getD j ""
          nodePort := nodePortArray.getD j 0
          success := (ownOutcome parallel seqEnv parEnv
            (nodeNameArray.getD j "") (nodePortArray.getD j 0) j).1
          result := (ownOutcome parallel seqEnv parEnv
            (nodeNameArray.getD j "") (nodePortArray.getD j 0) j).2 } =
        false) :
    ∃ rows : List Row,
      master_run_on_worker ctx nodeNameArray nodePortArray commandStringArray
          parallel seqEnv parEnv = .ok rows ∧
      rows.length = nodeNameArray.length ∧
      rows.getD i ⟨"", 0, false, ""⟩ =
        { nodeName := nodeNameArray.getD i ""
          nodePort := nodePortArray.getD i 0
          success := false
          result := "failed to connect to " ++ nodeNameArray.getD i "" ++
            ":" ++ toString (nodePortArray.getD i 0) } ∧
      (∀ j, j < nodeNameArray.length → j ≠ i →
        rows.getD j ⟨"", 0, false, ""⟩ =
          { nodeName := nodeNameArray.getD j ""
            nodePort := nodePortArray.getD j 0
            success := (ownOutcome parallel seqEnv parEnv
              (nodeNameArray.getD j "") (nodePortArray.getD j 0) j).1
            result := (ownOutcome parallel seqEnv parEnv
              (nodeNameArray.getD j "") (nodePortArray.getD j 0) j).2 }) ∧
      rows.countP isConnectFailureRow = 1 := by
  have howni : ownOutcome parallel seqEnv parEnv (nodeNameArray.getD i "")
      (nodePortArray.getD i 0) i =
      (false, "failed to connect to " ++ nodeNameArray.getD i "" ++ ":" ++
        toString (nodePortArray.getD i 0)) := by
    unfold ownOutcome
    cases parallel with
    | false =>
      simp only [Bool.false_eq_true, if_false]
      rw [hseq]
      rfl
    | true =>
      simp only [if_true]
      rw [hpar]
      rfl
  refine ⟨_, master_run_on_worker_ok ctx nodeNameArray nodePortArray
    commandStringArray parallel seqEnv parEnv hctx hlen hdesc, ?_, ?_, ?_, ?_⟩
  · unfold CreateTupleStore
    simp
  · rw [createTupleStore_runOutcomes_getD _ _ _ _ _ i hi, howni]
  · intro j hj hne
    rw [createTupleStore_runOutcomes_getD _ _ _ _ _ j hj]
  · rw [createTupleStore_runOutcomes_eq, List.countP_map]
    apply countP_range_eq_one nodeNameArray.length i _ hi
    · simp only [Function.comp_apply, isConnectFailureRow, howni]
      simp
    · intro j hj hne
      exact hothers j hj hne

/-- Oracle for the sequential executor with exactly command 0 failing to
connect. -/
def seqEnvOneFail : Nat → SeqBehavior := fun j =>
  if j = 0 then .connectFail
  else .response none (.commandOk "SELECT 1")

/-- Oracle for the parallel executor with exactly command 0 failing to
connect. -/
def parEnvOneFail : Nat → ParBehavior := fun j =>
  if j = 0 then .connectFail
  else .poll 0 (.response none (.commandOk "SELECT 1"))

/-- Witness for C3 at a concrete batch of two commands with command 0's
target unreachable. -/
theorem runOnNodes_isolates_single_connect_failure_witness :
    ∃ rows : List Row,
      master_run_on_worker goodCtx ["w1", "w2"] [11, 22] ["q1", "q2"] true
          seqEnvOneFail parEnvOneFail = .ok rows ∧
      rows.countP isConnectFailureRow = 1 := by
  obtain ⟨rows, h1, _, _, _, h5⟩ :=
    runOnNodes_isolates_single_connect_failure goodCtx ["w1", "w2"] [11, 22]
      ["q1", "q2"] true seqEnvOneFail parEnvOneFail 0 ⟨rfl, rfl⟩ ⟨rfl, rfl⟩
      rfl (by decide) rfl rfl (by decide)
  exact ⟨rows, h1, h5⟩

/-- C7 evaluation (the claim fails on the code): with one command whose
result is still pending after the first sweep and an interrupt pending at
the first `CHECK_FOR_INTERRUPTS`, the parallel executor propagates the
cancellation while the slot's connection is still open — the error state
carries one still-awaiting slot, and no close happens on that path.  The
sequential executor's early-return paths likewise perform zero
`CloseConnection` calls, as does the parallel connect-failure path. -/
theorem parallel_cancellation_leaves_connection_open :
    ExecuteCommandsInParallelWithCancellation ["w1"] [5432]
        (fun _ => .poll 1 .connLost) 1 (fun _ => true) =
      .error [SlotState.awaiting 0 PollOutcome.connLost] ∧
    openConnectionCount [SlotState.awaiting 0 PollOutcome.connLost] = 1 ∧
    executeRemoteQueryOrCommandCloseCount SeqBehavior.connectFail = 0 ∧
    executeRemoteQueryOrCommandCloseCount SeqBehavior.sendFail = 0 ∧
    parallelExecutorCloseCount ParBehavior.connectFail = 0 :=
  ⟨rfl, rfl, rfl, rfl, rfl⟩

/-- C8 counterexample: the matrix engine's per-source connection is opened
with `connectionFlags = 0` (citus_tools.c:177), not `FORCE_NEW_CONNECTION`,
so the claim that every connection used by the engine is forced-new fails
on the matrix engine. -/
theorem matrix_source_connection_not_forced_new :
    ConnFlag.forceNew ∉ storeAllConnectivityChecksConnectionFlags ∧
    storeAllConnectivityChecksConnectionFlags = [] :=
  ⟨by simp [storeAllConnectivityChecksConnectionFlags], rfl⟩

/-- C8 (amended): the sequential and parallel executors open every
command's connection with `FORCE_NEW_CONNECTION` — never a pooled reuse —
but the connectivity matrix engine's per-source connection and the single
probe's connection are opened with no flags, so those may reuse an existing
pooled connection. -/
theorem connection_flags_by_component :
    executeRemoteQueryOrCommandConnectionFlags = [ConnFlag.forceNew] ∧
    executeCommandsInParallelConnectionFlags = [ConnFlag.forceNew] ∧
    storeAllConnectivityChecksConnectionFlags = [] ∧
    checkConnectionToNodeConnectionFlags = [] :=
  ⟨rfl, rfl, rfl, rfl⟩

end CitusTools
